import Mathlib

/-
Verification of the content-optimization pipeline of the shopify_middleware
repository (Flask + SQLAlchemy).  The Python services are shallowly embedded:

* JSON-ish Python values (`Val`) are an inductive type; Python dicts are
  insertion-ordered association lists, with `dictGet` / `dictSet` /
  `dictUpdate` mirroring `d[k]`, `d[k] = v` and `d.update(other)`.
* SQLAlchemy model instances of `Prompt` (shopifyapp/models/prompt.py) are
  modelled as attribute maps: a constructor call sets exactly the keyword
  attributes appearing at the construction site, and `obj.attr` succeeds only
  if that attribute was set (otherwise Python raises AttributeError).  Method
  lookup falls back to the class body of models/prompt.py, whose methods are
  listed verbatim in `promptModelMethods`.
* External collaborators (the jinja2 template engine and the Gemini
  generation client) are parameters of type `String → … → Except String …`.
* `datetime.utcnow()` is a `now : Nat` parameter; the database session is
  passed explicitly as state.

Products are modelled as a fixed-shape structure carrying the columns of
shopifyapp/models/product.py together with the attributes that the services
and the repository's own tests (tests/test_seo_service.py) consistently read
and write on products (`original_description`, `is_optimized`,
`last_optimized`, `optimization_service`).
-/

/-- Python/JSON values as stored in preferences, prompt data and attribute
maps.  `Val.nat` covers the integer ids and counters that occur in the
services; dictionaries are insertion-ordered association lists exactly like
Python dicts. -/
inductive Val where
  | pynone : Val
  | str (s : String) : Val
  | bool (b : Bool) : Val
  | nat (n : Nat) : Val
  | list (xs : List Val) : Val
  | dict (entries : List (String × Val)) : Val

/-- Python `d[k]` as a total lookup: `none` models a missing key
(`k in d` is false / `d.get(k)` is `None`). First binding wins, as in an
association list built by `dictSet`. -/
def dictGet : List (String × Val) → String → Option Val
  | [], _ => Option.none
  | (k, v) :: rest, key => if k == key then some v else dictGet rest key

/-- Python `k in d`. -/
def dictHas (d : List (String × Val)) (key : String) : Bool :=
  (dictGet d key).isSome

/-- Python `d.get(k, default)`. -/
def dictGetD (d : List (String × Val)) (key : String) (dflt : Val) : Val :=
  (dictGet d key).getD dflt

/-- Python `d[k] = v`: overwrite in place when the key exists, otherwise
append (preserving dict insertion order). -/
def dictSet : List (String × Val) → String → Val → List (String × Val)
  | [], key, v => [(key, v)]
  | (k, w) :: rest, key, v =>
    if k == key then (k, v) :: rest else (k, w) :: dictSet rest key v

/-- Python `d.update(other)`: assign every binding of `other` into `d`, in
`other`'s order. -/
def dictUpdate (d other : List (String × Val)) : List (String × Val) :=
  other.foldl (fun acc kv => dictSet acc kv.1 kv.2) d

/-- Python truthiness of a value (used by `if store_preferences and
store_preferences.get('tone'):` in product_service.py). -/
def pyTruthy : Val → Bool
  | Val.pynone => false
  | Val.str s => !s.isEmpty
  | Val.bool b => b
  | Val.nat n => n != 0
  | Val.list xs => !xs.isEmpty
  | Val.dict d => !d.isEmpty

/-- Python `str(value)` for the values interpolated into f-strings by
product_service.py (only strings and numbers occur on those paths). -/
def pyStr : Val → String
  | Val.pynone => "None"
  | Val.str s => s
  | Val.bool b => if b then "True" else "False"
  | Val.nat n => toString n
  | Val.list _ => "[...]"
  | Val.dict _ => "\x7b...\x7d"

/-- A SQLAlchemy `Prompt` instance (shopifyapp/models/prompt.py), modelled as
a Python attribute map: the map holds exactly the attributes assigned so far
(constructor keyword arguments and later `setattr` assignments).  Reading an
attribute that is not in the map raises AttributeError in Python, which the
embedding surfaces through `Option.none`. -/
abbrev PromptObj : Type := List (String × Val)

/-- The methods defined in the class body of `Prompt` in
shopifyapp/models/prompt.py.  The class defines `to_dict` and the static
`create_default_prompt` and nothing else; in particular it defines no
`increment_usage`, although seo_service.py calls `prompt.increment_usage()`. -/
def promptModelMethods : List String := ["to_dict", "create_default_prompt"]

/-- The columns declared on the `Prompt` model (shopifyapp/models/prompt.py).
There is no `is_active` column and no `template` column, although
seo_service.py filters on `is_active` and prompt_service.render_prompt reads
`prompt.template`. -/
def promptModelColumns : List String :=
  ["id", "store_id", "template_name", "content", "response", "status",
   "response_time", "error_message", "metadata", "created_at", "updated_at",
   "tone", "target_audience", "writing_style", "seo_keywords_focus",
   "description_length", "key_features", "brand_voice", "industry_specific",
   "custom_instructions", "example_description", "avoid_words",
   "must_include_elements", "template_sections"]

/-- The body of the system default template, assigned to the `response`
attribute by `Prompt.create_default_prompt` (models/prompt.py lines 78-115).
Jinja braces and quotes are escape-coded but the text is reproduced
verbatim. -/
def defaultPromptResponseBody : String :=
  String.intercalate "\n"
    ["",
     "            As an expert e-commerce copywriter and SEO specialist, optimize the following product description ",
     "            to be more engaging, SEO-friendly, and conversion-focused. Maintain the key product features ",
     "            while improving readability and search engine optimization.",
     "",
     "            Product Title: \x7b\x7bproduct_title\x7d\x7d",
     "            Original Description: \x7b\x7boriginal_description\x7d\x7d",
     "",
     "            Guidelines:",
     "            - Maintain a \x7b\x7btone\x7d\x7d tone",
     "            - Target \x7b\x7btarget_audience\x7d\x7d audience",
     "            - Use \x7b\x7bwriting_style\x7d\x7d writing style",
     "            - Focus on \x7b\x7bseo_keywords_focus\x7d\x7d SEO optimization",
     "            - Aim for \x7b\x7bdescription_length\x7d\x7d length",
     "            \x7b% if key_features %\x7d",
     "            - Highlight these key features: \x7b\x7bkey_features|join(\x27, \x27)\x7d\x7d",
     "            \x7b% endif %\x7d",
     "            \x7b% if brand_voice %\x7d",
     "            - Brand Voice:",
     "              * Personality: \x7b\x7bbrand_voice.personality\x7d\x7d",
     "              * Emotion: \x7b\x7bbrand_voice.emotion\x7d\x7d",
     "              * Formality: \x7b\x7bbrand_voice.formality\x7d\x7d",
     "            \x7b% endif %\x7d",
     "            \x7b% if industry_specific %\x7d",
     "            - Industry Specifics:",
     "              * Industry: \x7b\x7bindustry_specific.industry\x7d\x7d",
     "              * Technical Level: \x7b\x7bindustry_specific.technical_level\x7d\x7d",
     "            \x7b% endif %\x7d",
     "            \x7b% if custom_instructions %\x7d",
     "            - Custom Instructions: \x7b\x7bcustom_instructions\x7d\x7d",
     "            \x7b% endif %\x7d",
     "            \x7b% if avoid_words %\x7d",
     "            - Avoid these words: \x7b\x7bavoid_words|join(\x27, \x27)\x7d\x7d",
     "            \x7b% endif %\x7d",
     "            \x7b% if must_include_elements %\x7d",
     "            - Must include: \x7b\x7bmust_include_elements|join(\x27, \x27)\x7d\x7d",
     "            \x7b% endif %\x7d",
     "            "]

/-- `Prompt.create_default_prompt(store_id)` (models/prompt.py lines 71-133):
constructs a Prompt instance whose set attributes are exactly the keyword
arguments of that call.  Note that the template body goes into `response`
(and a placeholder text into `content`); no `template` attribute and no
`is_active` attribute is assigned.  `response_time=0.0` is the integral
float zero. -/
def createDefaultPrompt (storeId : Nat) : PromptObj :=
  [("store_id", Val.nat storeId),
   ("template_name", Val.str "Default SEO Optimization"),
   ("content", Val.str "Default template for SEO-optimized product descriptions"),
   ("response", Val.str defaultPromptResponseBody),
   ("status", Val.str "success"),
   ("response_time", Val.nat 0),
   ("metadata", Val.dict
     [("product_title", Val.dict [("type", Val.str "string"), ("required", Val.bool true)]),
      ("original_description", Val.dict [("type", Val.str "string"), ("required", Val.bool true)]),
      ("tone", Val.dict [("type", Val.str "string"), ("required", Val.bool true)]),
      ("target_audience", Val.dict [("type", Val.str "string"), ("required", Val.bool true)]),
      ("writing_style", Val.dict [("type", Val.str "string"), ("required", Val.bool true)]),
      ("seo_keywords_focus", Val.dict [("type", Val.str "string"), ("required", Val.bool true)]),
      ("description_length", Val.dict [("type", Val.str "string"), ("required", Val.bool true)]),
      ("key_features", Val.dict [("type", Val.str "array"), ("required", Val.bool false)]),
      ("brand_voice", Val.dict [("type", Val.str "object"), ("required", Val.bool false)]),
      ("industry_specific", Val.dict [("type", Val.str "object"), ("required", Val.bool false)]),
      ("custom_instructions", Val.dict [("type", Val.str "string"), ("required", Val.bool false)]),
      ("avoid_words", Val.dict [("type", Val.str "array"), ("required", Val.bool false)]),
      ("must_include_elements", Val.dict [("type", Val.str "array"), ("required", Val.bool false)])])]

/-- The prompts table together with the session's autoincrement counter:
`db.session.add` followed by `commit` appends the row and assigns it the
next primary key. -/
structure PromptsDB where
  rows : List PromptObj
  nextId : Nat

/-- Insert a freshly constructed Prompt: commit assigns the primary key. -/
def insertPrompt (db : PromptsDB) (p : PromptObj) : PromptObj × PromptsDB :=
  let p' := dictSet p "id" (Val.nat db.nextId)
  (p', { rows := db.rows ++ [p'], nextId := db.nextId + 1 })

/-- Does this row match `Prompt.query.filter_by(store_id=store_id,
is_active=True)` (seo_service.py line 36)?  A row matches only if its
attribute map binds `store_id` to the given id and `is_active` to `True`;
since the `Prompt` model declares no `is_active` column, rows created by
`create_default_prompt` never match. -/
def matchesActiveFilter (storeId : Nat) (p : PromptObj) : Bool :=
  (match dictGet p "store_id" with
   | some (Val.nat n) => n == storeId
   | _ => false) &&
  (match dictGet p "is_active" with
   | some (Val.bool b) => b
   | _ => false)

/-- seo_service.py lines 36-41: look up the store's active prompt; if none
exists, create the default prompt, add it to the session and commit. -/
def getOrCreateActivePrompt (db : PromptsDB) (storeId : Nat) : PromptObj × PromptsDB :=
  match db.rows.find? (matchesActiveFilter storeId) with
  | some p => (p, db)
  | Option.none => insertPrompt db (createDefaultPrompt storeId)

/-- `PromptService.render_prompt` (prompt_service.py lines 314-333):
`jinja2.Template(prompt.template).render(**context)` inside a try/except
that re-raises any failure as `Exception("Failed to render prompt
template: ...")`.  `jinja` is the external jinja2 engine (template body and
context to rendered text, or a template error).  Reading `prompt.template`
raises AttributeError when the attribute was never assigned — in particular
for every prompt built by `create_default_prompt`. -/
def renderPrompt (jinja : String → List (String × Val) → Except String String)
    (prompt : PromptObj) (context : List (String × Val)) : Except String String :=
  match dictGet prompt "template" with
  | Option.none =>
    Except.error "Failed to render prompt template: \x27Prompt\x27 object has no attribute \x27template\x27"
  | some (Val.str t) =>
    match jinja t context with
    | Except.ok s => Except.ok s
    | Except.error e => Except.error ("Failed to render prompt template: " ++ e)
  | some _ =>
    Except.error "Failed to render prompt template: TypeError"

/-- The render context built by `SEOService._get_optimized_description`
(seo_service.py lines 44-66): product fields plus every preference field,
read with `store_preferences.get(...)` and its documented default. -/
def buildSeoContext (productTitle originalDescription : String)
    (prefs : List (String × Val)) : List (String × Val) :=
  [("product_title", Val.str productTitle),
   ("original_description", Val.str originalDescription),
   ("tone", dictGetD prefs "tone" (Val.str "professional")),
   ("target_audience", dictGetD prefs "target_audience" (Val.str "general")),
   ("writing_style", dictGetD prefs "writing_style" (Val.str "descriptive")),
   ("seo_keywords_focus", dictGetD prefs "seo_keywords_focus" (Val.str "balanced")),
   ("description_length", dictGetD prefs "description_length" (Val.str "medium")),
   ("key_features", dictGetD prefs "key_features" (Val.list [])),
   ("brand_voice", dictGetD prefs "brand_voice" (Val.dict
     [("personality", Val.str "professional"),
      ("emotion", Val.str "neutral"),
      ("formality", Val.str "formal")])),
   ("industry_specific", dictGetD prefs "industry_specific" (Val.dict
     [("industry", Val.pynone),
      ("specializations", Val.list []),
      ("technical_level", Val.str "moderate")])),
   ("custom_instructions", dictGetD prefs "custom_instructions" Val.pynone),
   ("avoid_words", dictGetD prefs "avoid_words" (Val.list [])),
   ("must_include_elements", dictGetD prefs "must_include_elements" (Val.list []))]

/-- Python `str.isspace` membership for the characters removed by
`str.strip()` (space, tab, newline, carriage return, vertical tab, form
feed). -/
def pyIsSpace (c : Char) : Bool :=
  c == ' ' || c == '\t' || c == '\n' || c == '\r' || c == '\x0b' || c == '\x0c'

/-- Python `s.strip()`: remove leading and trailing whitespace. -/
def pyStrip (s : String) : String :=
  String.mk (((s.data.dropWhile pyIsSpace).reverse.dropWhile pyIsSpace).reverse)

/-- Python `s.startswith(prefix)`. -/
def pyStartsWith (s pre : String) : Bool :=
  pre.data.isPrefixOf s.data

/-- HTML normalization shared verbatim by seo_service.py lines 84-88 and
product_service.py lines 223-227: wrap the generated text in a paragraph tag
unless its first non-whitespace character already opens a tag
(`if not optimized_description.strip().startswith('<')`). -/
def ensureHtml (s : String) : String :=
  if !(pyStartsWith (pyStrip s) "<") then "<p>" ++ s ++ "</p>" else s

/-- Result of `SEOService._get_optimized_description`: the returned text or
the raised error, the prompts table after the call, and — as an observation
used to state the fallback policy — the list of prompts passed to
`PromptService.render_prompt`, in call order. -/
structure SeoGenOutcome where
  result : Except String String
  db : PromptsDB
  rendered : List PromptObj

/-- seo_service.py lines 77-88, the code after a successful render: call the
generation model, call `prompt.increment_usage()` (a method the `Prompt`
class does not define, hence an AttributeError caught and re-wrapped by the
outer handler at line 90), normalize the output and return it. -/
def seoFinishGen (generate : String → Except String String) (db : PromptsDB)
    (rendered : List PromptObj) (text : String) : SeoGenOutcome :=
  match generate text with
  | Except.error e =>
    ⟨Except.error ("Failed to generate optimized description: " ++ e), db, rendered⟩
  | Except.ok out =>
    if promptModelMethods.contains "increment_usage" then
      ⟨Except.ok (ensureHtml out), db, rendered⟩
    else
      ⟨Except.error "Failed to generate optimized description: \x27Prompt\x27 object has no attribute \x27increment_usage\x27",
       db, rendered⟩

/-- `SEOService._get_optimized_description` (seo_service.py lines 13-92).
`jinja` and `generate` are the external jinja2 engine and the Gemini client.
Control flow translated from the source: look up or lazily create the active
prompt (lines 36-41), build the context (44-66), render with
fallback-to-default on failure (68-75, the fallback render is not guarded by
an inner try, so its failure reaches the outer handler), then generate,
increment usage and normalize (77-88); the outer except (line 90) wraps any
failure as "Failed to generate optimized description: ...". -/
def getOptimizedDescription (jinja : String → List (String × Val) → Except String String)
    (generate : String → Except String String) (db : PromptsDB) (storeId : Nat)
    (productTitle originalDescription : String) (prefs : List (String × Val)) :
    SeoGenOutcome :=
  let lookup := getOrCreateActivePrompt db storeId
  let prompt := lookup.1
  let db1 := lookup.2
  let context := buildSeoContext productTitle originalDescription prefs
  match renderPrompt jinja prompt context with
  | Except.ok text => seoFinishGen generate db1 [prompt] text
  | Except.error _ =>
    let fallback := createDefaultPrompt storeId
    match renderPrompt jinja fallback context with
    | Except.ok text => seoFinishGen generate db1 [prompt, fallback] text
    | Except.error e =>
      ⟨Except.error ("Failed to generate optimized description: " ++ e), db1,
       [prompt, fallback]⟩

/-- A product row (shopifyapp/models/product.py) together with the product
attributes that the services and the repository's tests consistently use
(`original_description`, `is_optimized`, `last_optimized`,
`optimization_service`); timestamps are abstract ticks. -/
structure Product where
  id : Nat
  store_id : Nat
  title : String
  description : Option String
  original_description : Option String
  optimized_description : Option String
  is_optimized : Bool
  last_optimized : Option Nat
  optimization_service : Option String
  status : String
deriving DecidableEq

/-- A store row (shopifyapp/models/store.py), restricted to the columns the
optimization pipeline reads. -/
structure StoreRec where
  id : Nat
  user_id : Nat
  prompt_preferences : List (String × Val)

/-- `Store.query.filter_by(id=store_id, user_id=user_id).first()`. -/
def findStore (stores : List StoreRec) (storeId userId : Nat) : Option StoreRec :=
  stores.find? (fun s => s.id == storeId && s.user_id == userId)

/-- `Product.query.filter_by(id=product_id, store_id=store_id).first()`. -/
def findProduct (products : List Product) (productId storeId : Nat) : Option Product :=
  products.find? (fun p => p.id == productId && p.store_id == storeId)

/-- A service response: the success dictionary or the `{'error': ...}`
dictionary returned by the except branches. -/
inductive ApiResult where
  | success (message : String) (product : Product) : ApiResult
  | failure (error_message : String) : ApiResult

/-- The per-product mutation applied on a successful optimization
(seo_service.py lines 130-133 and 183-186): store the generated description,
set the optimized flag and refresh the optimization timestamp. -/
def applyOptimization (p : Product) (desc : String) (now : Nat) : Product :=
  { p with optimized_description := some desc, is_optimized := true,
           last_optimized := some now }

/-- `SEOService.optimize_product_description` (seo_service.py lines 94-144),
parameterized by `f`, the call to `SEOService._get_optimized_description` on
the product's title and original description with the store's preferences
(its faithful instantiation is `getOptimizedDescription`; any exception it
raises is caught at line 141, the session is rolled back and
`({'error': str(e)}, 500)` is returned).  Returns the response with its HTTP
status and the products table after the call. -/
def seoOptimizeProductDescription (f : Product → Except String String) (now : Nat)
    (stores : List StoreRec) (products : List Product)
    (userId storeId productId : Nat) : (ApiResult × Nat) × List Product :=
  match findStore stores storeId userId with
  | Option.none => ((ApiResult.failure "Store not found", 404), products)
  | some _store =>
    match findProduct products productId storeId with
    | Option.none => ((ApiResult.failure "Product not found", 404), products)
    | some product =>
      match f product with
      | Except.error e => ((ApiResult.failure e, 500), products)
      | Except.ok desc =>
        let updated := applyOptimization product desc now
        ((ApiResult.success "Product description optimized successfully" updated, 200),
         products.map (fun q => if q.id == product.id then updated else q))

/-- The body of the batch loop of `SEOService.optimize_all_products`
(seo_service.py lines 173-195) on one product: on success the session object
is mutated, on failure it is left as it was. -/
def optimizeOne (f : Product → Except String String) (now : Nat) (p : Product) : Product :=
  match f p with
  | Except.ok desc => applyOptimization p desc now
  | Except.error _ => p

/-- The batch loop of `SEOService.optimize_all_products` (seo_service.py
lines 173-195): for each product in order, try the per-item generation; on
success mutate the product and append it to `optimized_products`; on failure
append `{'product_id': ..., 'error': ...}` to `errors` and continue.
Returns (final session contents, optimized_products, errors). -/
def optimizeLoop (f : Product → Except String String) (now : Nat) :
    List Product → List Product × List Product × List (Nat × String)
  | [] => ([], [], [])
  | p :: rest =>
    let tail := optimizeLoop f now rest
    match f p with
    | Except.ok desc =>
      let p' := applyOptimization p desc now
      (p' :: tail.1, p' :: tail.2.1, tail.2.2)
    | Except.error e =>
      (p :: tail.1, tail.2.1, (p.id, e) :: tail.2.2)

/-- The response of a batch optimization: the success message, the list of
optimized products (the source appends `product.to_dict()`; the embedding
keeps the product records, whose count and order agree) and the collected
per-product error entries. -/
structure BatchResponse where
  message : String
  optimized : List Product
  errors : List (Nat × String)

/-- `SEOService.optimize_all_products` (seo_service.py lines 146-212): check
the store, loop over the store's products with per-item error isolation,
commit once, and answer 200 when `errors` is empty and 207 Multi-Status
otherwise (line 207).  Returns the response with its status and the products
table after the commit. -/
def seoOptimizeAllProducts (f : Product → Except String String) (now : Nat)
    (stores : List StoreRec) (products : List Product) (userId storeId : Nat) :
    (Except String BatchResponse × Nat) × List Product :=
  match findStore stores storeId userId with
  | Option.none => ((Except.error "Store not found", 404), products)
  | some _store =>
    let items := products.filter (fun p => p.store_id == storeId)
    let run := optimizeLoop f now items
    let resp : BatchResponse :=
      { message := "Successfully optimized " ++ toString run.2.1.length ++ " products",
        optimized := run.2.1,
        errors := run.2.2 }
    ((Except.ok resp, if run.2.2.isEmpty then 200 else 207),
     products.map (fun p => if p.store_id == storeId then optimizeOne f now p else p))

/-- The base prompt text of `ProductService._get_optimized_description`
(product_service.py lines 192-207), with its `format` substitution points
(brace characters escape-coded). -/
def productBasePromptText : String :=
  String.intercalate "\n"
    ["",
     "            As an expert e-commerce copywriter and SEO specialist, optimize the following product description ",
     "            to be more engaging, SEO-friendly, and conversion-focused. Maintain the key product features ",
     "            while improving readability and search engine optimization.",
     "",
     "            Product Title: \x7btitle\x7d",
     "            Original Description: \x7bdescription\x7d",
     "",
     "            Guidelines:",
     "            - Maintain a professional yet engaging tone",
     "            - Include relevant keywords naturally",
     "            - Structure content with clear sections",
     "            - Focus on benefits and value propositions",
     "            - Ensure mobile-friendly formatting",
     "            - Keep HTML formatting for Shopify",
     "            "]

/-- Prompt construction of `ProductService._get_optimized_description`
(product_service.py lines 192-218): append the preference-driven guideline
lines when the preferences dictionary and the respective entry are truthy,
then apply `.format(title=..., description=...)`. -/
def productBasePrompt (title description : String) (prefs : List (String × Val)) : String :=
  let withTone :=
    if !prefs.isEmpty && pyTruthy (dictGetD prefs "tone" Val.pynone) then
      productBasePromptText ++ "\n- Use a " ++ pyStr (dictGetD prefs "tone" Val.pynone) ++ " tone"
    else productBasePromptText
  let withLength :=
    if !prefs.isEmpty && pyTruthy (dictGetD prefs "length" Val.pynone) then
      withTone ++ "\n- Aim for approximately " ++ pyStr (dictGetD prefs "length" Val.pynone) ++ " words"
    else withTone
  (withLength.replace "\x7btitle\x7d" title).replace "\x7bdescription\x7d" description

/-- `ProductService._get_optimized_description` (product_service.py lines
166-230): build the prompt, call the generation model, normalize the output;
any failure is re-raised as "Failed to generate optimized description: ...". -/
def productGetOptimizedDescription (generate : String → Except String String)
    (originalDescription title : String) (prefs : List (String × Val)) :
    Except String String :=
  match generate (productBasePrompt title originalDescription prefs) with
  | Except.error e => Except.error ("Failed to generate optimized description: " ++ e)
  | Except.ok out => Except.ok (ensureHtml out)

/-- Python `a or b` on two optional strings (`product.original_description or
product.description`, product_service.py lines 262 and 269): the first
operand unless it is `None` or empty. -/
def pyOrOpt (a b : Option String) : Option String :=
  match a with
  | some s => if s.isEmpty then b else some s
  | Option.none => b

/-- The string actually interpolated for an optional value (Python formats
`None` as "None"). -/
def strOfOpt : Option String → String
  | some s => s
  | Option.none => "None"

/-- `ProductService.optimize_product_description` (product_service.py lines
232-283): look up store and product, generate the optimized description from
`original_description or description`, store the results (lines 267-272) and
commit; on any exception roll back and return `({'error': str(e)}, 500)`. -/
def productOptimizeProductDescription (generate : String → Except String String)
    (now : Nat) (stores : List StoreRec) (products : List Product)
    (userId storeId productId : Nat) : (ApiResult × Nat) × List Product :=
  match findStore stores storeId userId with
  | Option.none => ((ApiResult.failure "Store not found", 404), products)
  | some store =>
    match findProduct products productId storeId with
    | Option.none => ((ApiResult.failure "Product not found", 404), products)
    | some product =>
      let src := pyOrOpt product.original_description product.description
      match productGetOptimizedDescription generate (strOfOpt src) product.title
          store.prompt_preferences with
      | Except.error e => ((ApiResult.failure e, 500), products)
      | Except.ok desc =>
        let updated := { product with
          optimized_description := some desc,
          original_description := src,
          is_optimized := true,
          last_optimized := some now,
          optimization_service := some "gemini" }
        ((ApiResult.success "Product description optimized successfully" updated, 200),
         products.map (fun q => if q.id == product.id then updated else q))

/-- The required preference fields checked by
`PromptService.update_prompt_preferences` (prompt_service.py line 57), in
source order. -/
def requiredPrefFields : List String := ["tone", "target_audience", "writing_style"]

/-- The updatable preference fields of
`PromptService.update_prompt_preferences` (prompt_service.py lines 63-68),
in source order. -/
def validPrefFields : List String :=
  ["tone", "target_audience", "writing_style", "seo_keywords_focus",
   "description_length", "key_features", "brand_voice", "industry_specific",
   "custom_instructions", "example_description", "avoid_words",
   "must_include_elements", "template_sections"]

/-- The merge loop of `PromptService.update_prompt_preferences`
(prompt_service.py lines 70-79): for each valid field present in the
payload, deep-merge `brand_voice` / `industry_specific` dictionaries
key-by-key (creating an empty dictionary first when the field is absent from
the stored preferences) and assign every other value wholesale.  Calling
`.update` on a stored non-dictionary value raises (AttributeError), which
the service's except branch turns into a 500. -/
def mergePrefsFields (payload : List (String × Val)) (acc : List (String × Val)) :
    List String → Except String (List (String × Val))
  | [] => Except.ok acc
  | fld :: rest =>
    match dictGet payload fld with
    | Option.none => mergePrefsFields payload acc rest
    | some v =>
      match fld == "brand_voice" || fld == "industry_specific", v with
      | true, Val.dict newEntries =>
        (match dictGet acc fld with
         | Option.none =>
           mergePrefsFields payload (dictSet acc fld (Val.dict (dictUpdate [] newEntries))) rest
         | some (Val.dict old) =>
           mergePrefsFields payload (dictSet acc fld (Val.dict (dictUpdate old newEntries))) rest
         | some _ => Except.error "AttributeError: update")
      | _, _ => mergePrefsFields payload (dictSet acc fld v) rest

/-- Response payload of the preference update. -/
inductive PrefResult where
  | success (message : String) (prompt_preferences : List (String × Val)) : PrefResult
  | failure (error_message : String) : PrefResult

/-- `PromptService.update_prompt_preferences` (prompt_service.py lines
33-92): find the store (404 when absent), reject the payload with a 400
naming the first of `tone`, `target_audience`, `writing_style` missing from
it (lines 57-60), otherwise merge the valid fields into a copy of the stored
preferences, persist and answer 200 with the merged preferences. -/
def updatePromptPreferences (_now : Nat) (stores : List StoreRec)
    (storeId userId : Nat) (preferences : List (String × Val)) :
    (PrefResult × Nat) × List StoreRec :=
  match findStore stores storeId userId with
  | Option.none => ((PrefResult.failure "Store not found", 404), stores)
  | some store =>
    match requiredPrefFields.find? (fun fld => !(dictHas preferences fld)) with
    | some fld => ((PrefResult.failure ("Missing required field: " ++ fld), 400), stores)
    | Option.none =>
      match mergePrefsFields preferences store.prompt_preferences validPrefFields with
      | Except.error e => ((PrefResult.failure e, 500), stores)
      | Except.ok newPrefs =>
        ((PrefResult.success "Prompt preferences updated successfully" newPrefs, 200),
         stores.map (fun s =>
           if s.id == store.id && s.user_id == store.user_id then
             { s with prompt_preferences := newPrefs }
           else s))

/-- `jinja2.Template(value)` used as a syntax check (prompt_service.py lines
176-179 and 247-250): parse a string body with the external jinja2 parser
(`jinjaParse`); a non-string value makes the jinja2 constructor raise, which
the same except branch catches. -/
def templateParseCheck (jinjaParse : String → Except String Unit) :
    Option Val → Except String Unit
  | some (Val.str t) => jinjaParse t
  | some _ => Except.error "TypeError"
  | Option.none => Except.ok ()

/-- The `Prompt(...)` constructor call of `PromptService.create_prompt`
(prompt_service.py lines 182-206): the attributes set are exactly its
keyword arguments, with the `.get` defaults of the source. -/
def buildPromptFromData (storeId : Nat) (prompt_data : List (String × Val)) : PromptObj :=
  [("store_id", Val.nat storeId),
   ("name", dictGetD prompt_data "name" Val.pynone),
   ("description", dictGetD prompt_data "description" Val.pynone),
   ("template", dictGetD prompt_data "template" Val.pynone),
   ("is_default", dictGetD prompt_data "is_default" (Val.bool false)),
   ("is_active", dictGetD prompt_data "is_active" (Val.bool true)),
   ("variables", dictGetD prompt_data "variables" (Val.dict [])),
   ("tone", dictGetD prompt_data "tone" (Val.str "professional")),
   ("target_audience", dictGetD prompt_data "target_audience" (Val.str "general")),
   ("writing_style", dictGetD prompt_data "writing_style" (Val.str "descriptive")),
   ("seo_keywords_focus", dictGetD prompt_data "seo_keywords_focus" (Val.str "balanced")),
   ("description_length", dictGetD prompt_data "description_length" (Val.str "medium")),
   ("key_features", dictGetD prompt_data "key_features" (Val.list [])),
   ("brand_voice", dictGetD prompt_data "brand_voice" (Val.dict
     [("personality", Val.str "professional"),
      ("emotion", Val.str "neutral"),
      ("formality", Val.str "formal")])),
   ("industry_specific", dictGetD prompt_data "industry_specific" (Val.dict
     [("industry", Val.pynone),
      ("specializations", Val.list []),
      ("technical_level", Val.str "moderate")]))]

/-- `PromptService.create_prompt` (prompt_service.py lines 146-215): find the
store, require `name` and `template` (400 naming the first missing), validate
the template syntax (400 on parse failure, before any session write), then
construct the prompt from the payload with the documented defaults, add it
to the session and commit (201). -/
def createPrompt (jinjaParse : String → Except String Unit)
    (stores : List StoreRec) (db : PromptsDB) (storeId userId : Nat)
    (prompt_data : List (String × Val)) :
    (Except String PromptObj × Nat) × PromptsDB :=
  match findStore stores storeId userId with
  | Option.none => ((Except.error "Store not found", 404), db)
  | some _store =>
    match ["name", "template"].find? (fun fld => !(dictHas prompt_data fld)) with
    | some fld => ((Except.error ("Missing required field: " ++ fld), 400), db)
    | Option.none =>
      match templateParseCheck jinjaParse (dictGet prompt_data "template") with
      | Except.error e => ((Except.error ("Invalid template syntax: " ++ e), 400), db)
      | Except.ok _ =>
        let ins := insertPrompt db (buildPromptFromData storeId prompt_data)
        ((Except.ok ins.1, 201), ins.2)

/-- Row predicate for `Prompt.query.filter_by(id=prompt_id,
store_id=store_id)` (prompt_service.py line 241). -/
def promptIdMatches (promptId storeId : Nat) (p : PromptObj) : Bool :=
  (match dictGet p "id" with
   | some (Val.nat n) => n == promptId
   | _ => false) &&
  (match dictGet p "store_id" with
   | some (Val.nat n) => n == storeId
   | _ => false)

/-- The updatable fields of `PromptService.update_prompt` (prompt_service.py
lines 253-260), in source order. -/
def updateablePromptFields : List String :=
  ["name", "description", "template", "is_default", "is_active",
   "variables", "tone", "target_audience", "writing_style",
   "seo_keywords_focus", "description_length", "key_features",
   "brand_voice", "industry_specific", "custom_instructions",
   "example_description", "avoid_words", "must_include_elements",
   "template_sections"]

/-- One pass of the `setattr` loop of `PromptService.update_prompt` (lines
262-264) over a list of field names: assign every field present in the
payload, in field order. -/
def applyFields (prompt_data : List (String × Val)) (p : PromptObj) :
    List String → PromptObj
  | [] => p
  | fld :: rest =>
    applyFields prompt_data
      (match dictGet prompt_data fld with
       | some v => dictSet p fld v
       | Option.none => p) rest

/-- The `setattr` loop of `PromptService.update_prompt` (lines 262-264):
assign every updatable field present in the payload. -/
def applyPromptUpdate (prompt_data : List (String × Val)) (p : PromptObj) : PromptObj :=
  applyFields prompt_data p updateablePromptFields

/-- `PromptService.update_prompt` (prompt_service.py lines 217-273): find the
store and the prompt (404 when absent), validate the template syntax when
the payload carries a `template` (400 on parse failure, before any write),
then assign the supplied updatable fields and commit (200). -/
def updatePrompt (jinjaParse : String → Except String Unit)
    (stores : List StoreRec) (db : PromptsDB) (storeId userId promptId : Nat)
    (prompt_data : List (String × Val)) :
    (Except String PromptObj × Nat) × PromptsDB :=
  match findStore stores storeId userId with
  | Option.none => ((Except.error "Store not found", 404), db)
  | some _store =>
    match db.rows.find? (promptIdMatches promptId storeId) with
    | Option.none => ((Except.error "Prompt not found", 404), db)
    | some prompt =>
      match (if dictHas prompt_data "template" then
               templateParseCheck jinjaParse (dictGet prompt_data "template")
             else Except.ok ()) with
      | Except.error e => ((Except.error ("Invalid template syntax: " ++ e), 400), db)
      | Except.ok _ =>
        let updated := applyPromptUpdate prompt_data prompt
        ((Except.ok updated, 200),
         { db with rows := db.rows.map (fun q =>
             if promptIdMatches promptId storeId q then updated else q) })

/-- Observer: did the per-item operation succeed? -/
def exceptOk : Except String String → Bool
  | Except.ok _ => true
  | Except.error _ => false

/-- Invariant: every prompt row carrying a string `template` attribute
carries one the jinja2 parser accepts — the property that the validation in
`create_prompt` and `update_prompt` establishes for the prompts they
persist. -/
def promptTemplatesParseable (jinjaParse : String → Except String Unit)
    (db : PromptsDB) : Prop :=
  ∀ p ∈ db.rows, ∀ t, dictGet p "template" = some (Val.str t) →
    jinjaParse t = Except.ok ()

theorem dictGet_dictSet_self (d : List (String × Val)) (k : String) (v : Val) :
    dictGet (dictSet d k v) k = some v := by
  induction d with
  | nil => simp [dictSet, dictGet]
  | cons hd tl ih =>
    obtain ⟨a, w⟩ := hd
    by_cases h : a = k
    · subst h; simp [dictSet, dictGet]
    · simp [dictSet, dictGet, h, ih]

theorem dictGet_dictSet_of_ne (d : List (String × Val)) (k k' : String) (v : Val)
    (h : k' ≠ k) : dictGet (dictSet d k v) k' = dictGet d k' := by
  have h' : ¬(k = k') := fun hh => h hh.symm
  induction d with
  | nil => simp [dictSet, dictGet, h']
  | cons hd tl ih =>
    obtain ⟨a, w⟩ := hd
    by_cases ha : a = k
    · subst ha
      simp [dictSet, dictGet, h']
    · by_cases ha' : a = k'
      · subst ha'
        simp [dictSet, dictGet, ha]
      · simp [dictSet, dictGet, ha, ha', ih]

theorem dictGet_dictUpdate_of_none (d other : List (String × Val)) (k : String)
    (h : dictGet other k = Option.none) :
    dictGet (dictUpdate d other) k = dictGet d k := by
  induction other generalizing d with
  | nil => rfl
  | cons hd tl ih =>
    obtain ⟨a, w⟩ := hd
    have ha : ¬(a = k) := by
      intro hh; subst hh; simp [dictGet] at h
    have ht : dictGet tl k = Option.none := by
      simpa [dictGet, ha] using h
    show dictGet (dictUpdate (dictSet d a w) tl) k = dictGet d k
    rw [ih (dictSet d a w) ht, dictGet_dictSet_of_ne d a k w (fun hh => ha hh.symm)]

theorem seoFinishGen_rendered (g : String → Except String String) (db : PromptsDB)
    (r : List PromptObj) (t : String) : (seoFinishGen g db r t).rendered = r := by
  unfold seoFinishGen
  cases g t with
  | error e => rfl
  | ok out => rfl

theorem optimizeLoop_final (f : Product → Except String String) (now : Nat)
    (l : List Product) : (optimizeLoop f now l).1 = l.map (optimizeOne f now) := by
  induction l with
  | nil => rfl
  | cons p rest ih =>
    cases hf : f p <;> simp [optimizeLoop, optimizeOne, hf, ih]

theorem optimizeLoop_optimized (f : Product → Except String String) (now : Nat)
    (l : List Product) :
    (optimizeLoop f now l).2.1 = l.filterMap (fun p =>
      match f p with
      | Except.ok d => some (applyOptimization p d now)
      | Except.error _ => Option.none) := by
  induction l with
  | nil => rfl
  | cons p rest ih =>
    cases hf : f p <;> simp [optimizeLoop, List.filterMap_cons, hf, ih]

theorem optimizeLoop_errors (f : Product → Except String String) (now : Nat)
    (l : List Product) :
    (optimizeLoop f now l).2.2 = l.filterMap (fun p =>
      match f p with
      | Except.error e => some (p.id, e)
      | Except.ok _ => Option.none) := by
  induction l with
  | nil => rfl
  | cons p rest ih =>
    cases hf : f p <;> simp [optimizeLoop, List.filterMap_cons, hf, ih]

theorem optimizeLoop_optimized_length (f : Product → Except String String) (now : Nat)
    (l : List Product) :
    (optimizeLoop f now l).2.1.length = l.countP (fun p => exceptOk (f p)) := by
  induction l with
  | nil => rfl
  | cons p rest ih =>
    cases hf : f p <;> simp [optimizeLoop, List.countP_cons, exceptOk, hf, ih]

theorem optimizeLoop_errors_length (f : Product → Except String String) (now : Nat)
    (l : List Product) :
    (optimizeLoop f now l).2.2.length = l.countP (fun p => !(exceptOk (f p))) := by
  induction l with
  | nil => rfl
  | cons p rest ih =>
    cases hf : f p <;> simp [optimizeLoop, List.countP_cons, exceptOk, hf, ih]

theorem applyFields_get (data : List (String × Val)) (key : String) :
    ∀ (L : List String) (q : List (String × Val)),
      dictGet (applyFields data q L) key =
        if key ∈ L ∧ (dictGet data key).isSome then dictGet data key else dictGet q key := by
  intro L
  induction L with
  | nil => intro q; simp [applyFields]
  | cons fld rest ih =>
    intro q
    show dictGet (applyFields data (match dictGet data fld with
        | some v => dictSet q fld v
        | Option.none => q) rest) key = _
    rw [ih]
    by_cases h1 : key ∈ rest ∧ (dictGet data key).isSome
    · rw [if_pos h1, if_pos ⟨List.mem_cons_of_mem _ h1.1, h1.2⟩]
    · rw [if_neg h1]
      by_cases h2 : fld = key
      · subst h2
        cases hd : dictGet data fld with
        | none => simp [hd]
        | some v => simp [hd, dictGet_dictSet_self]
      · have hstep : dictGet (match dictGet data fld with
            | some v => dictSet q fld v
            | Option.none => q) key = dictGet q key := by
          cases hd : dictGet data fld with
          | none => rfl
          | some v => exact dictGet_dictSet_of_ne q fld key v (fun hh => h2 hh.symm)
        rw [hstep, if_neg ?hc]
        case hc =>
          intro hh
          rcases List.mem_cons.mp hh.1 with hk | hk
          · exact h2 hk.symm
          · exact h1 ⟨hk, hh.2⟩

/-- C1: if rendering the store's active prompt template fails,
`_get_optimized_description` substitutes the prompt built by
`Prompt.create_default_prompt` (the built-in default template) and renders
exactly once more — the render trace is precisely the selected prompt
followed by the default prompt; if that fallback render also fails, the
failure is propagated to the caller through the outer handler; and in every
execution at most two templates are ever passed to the renderer. -/
theorem seo_fallback_renders_default_once
    (jinja : String → List (String × Val) → Except String String)
    (generate : String → Except String String) (db : PromptsDB) (storeId : Nat)
    (title desc : String) (prefs : List (String × Val)) :
    (getOptimizedDescription jinja generate db storeId title desc prefs).rendered.length ≤ 2 ∧
    ∀ e, renderPrompt jinja (getOrCreateActivePrompt db storeId).1
        (buildSeoContext title desc prefs) = Except.error e →
      (getOptimizedDescription jinja generate db storeId title desc prefs).rendered
        = [(getOrCreateActivePrompt db storeId).1, createDefaultPrompt storeId] ∧
      ∀ e2, renderPrompt jinja (createDefaultPrompt storeId)
          (buildSeoContext title desc prefs) = Except.error e2 →
        (getOptimizedDescription jinja generate db storeId title desc prefs).result
          = Except.error ("Failed to generate optimized description: " ++ e2) := by
  constructor
  · simp only [getOptimizedDescription]
    cases h1 : renderPrompt jinja (getOrCreateActivePrompt db storeId).1
        (buildSeoContext title desc prefs) with
    | ok text => simp [seoFinishGen_rendered]
    | error e =>
      cases h2 : renderPrompt jinja (createDefaultPrompt storeId)
          (buildSeoContext title desc prefs) with
      | ok t2 => simp [seoFinishGen_rendered]
      | error e2 => simp
  · intro e h1
    simp only [getOptimizedDescription, h1]
    constructor
    · cases h2 : renderPrompt jinja (createDefaultPrompt storeId)
          (buildSeoContext title desc prefs) with
      | ok t2 => simp [seoFinishGen_rendered]
      | error e2 => simp
    · intro e2 h2
      simp only [h2]

/-- C1 witness: with a renderer that fails on every template and an empty
prompts table, the active-prompt render fails, the fallback default prompt
is rendered exactly once more, its failure is propagated, and no third
template is attempted. -/
theorem seo_fallback_renders_default_once_witness :
    (getOptimizedDescription (fun _ _ => Except.error "boom")
        (fun _ => Except.ok "out") ⟨[], 1⟩ 1 "T" "D" []).rendered
      = [(getOrCreateActivePrompt ⟨[], 1⟩ 1).1, createDefaultPrompt 1] ∧
    (getOptimizedDescription (fun _ _ => Except.error "boom")
        (fun _ => Except.ok "out") ⟨[], 1⟩ 1 "T" "D" []).result
      = Except.error ("Failed to generate optimized description: " ++
          "Failed to render prompt template: \x27Prompt\x27 object has no attribute \x27template\x27") := by
  have h := seo_fallback_renders_default_once (fun _ _ => Except.error "boom")
    (fun _ => Except.ok "out") ⟨[], 1⟩ 1 "T" "D" []
  have h1 := h.2 _ rfl
  exact ⟨h1.1, h1.2 _ rfl⟩

theorem optimizeLoop_errors_isEmpty (f : Product → Except String String) (now : Nat)
    (l : List Product) :
    (optimizeLoop f now l).2.2.isEmpty = l.all (fun p => exceptOk (f p)) := by
  induction l with
  | nil => rfl
  | cons p rest ih =>
    cases hf : f p <;> simp [optimizeLoop, exceptOk, hf, ih]

/-- C2: the SEO batch optimizer processes the store's products in input
order; a per-item failure is caught, recorded as a `(product id, error
message)` entry, and never aborts the rest of the batch; the response's
optimized list and error list are exactly the order-preserving projections
of the per-item outcomes, their lengths are the success and failure counts,
and the committed table updates exactly the successful items. -/
theorem seo_batch_isolation_and_counts
    (f : Product → Except String String) (now : Nat) (stores : List StoreRec)
    (products : List Product) (userId storeId : Nat) (store : StoreRec)
    (hs : findStore stores storeId userId = some store) :
    ∃ resp : BatchResponse,
      (seoOptimizeAllProducts f now stores products userId storeId).1.1 = Except.ok resp ∧
      resp.optimized = (products.filter (fun p => p.store_id == storeId)).filterMap
        (fun p => match f p with
          | Except.ok d => some (applyOptimization p d now)
          | Except.error _ => Option.none) ∧
      resp.errors = (products.filter (fun p => p.store_id == storeId)).filterMap
        (fun p => match f p with
          | Except.error e => some (p.id, e)
          | Except.ok _ => Option.none) ∧
      resp.optimized.length = (products.filter (fun p => p.store_id == storeId)).countP
        (fun p => exceptOk (f p)) ∧
      resp.errors.length = (products.filter (fun p => p.store_id == storeId)).countP
        (fun p => !(exceptOk (f p))) ∧
      (seoOptimizeAllProducts f now stores products userId storeId).2
        = products.map (fun p => if p.store_id == storeId then optimizeOne f now p else p) := by
  simp only [seoOptimizeAllProducts, hs]
  exact ⟨_, rfl, optimizeLoop_optimized f now _, optimizeLoop_errors f now _,
    optimizeLoop_optimized_length f now _, optimizeLoop_errors_length f now _, trivial⟩

/-- C2 witness: three products where the second item's generation raises
`ProviderError`: the batch completes, succeeded = 2, failed = 1 with the
error entry naming item 2 and the message, items 1 and 3 carry their
optimized text and item 2 is unchanged. -/
theorem seo_batch_isolation_and_counts_witness :
    ∃ resp : BatchResponse,
      (seoOptimizeAllProducts
          (fun p => if p.id == 2 then Except.error "ProviderError"
                    else Except.ok "<p>Optimized</p>") 0 [⟨1, 1, []⟩]
          [⟨1, 1, "Product 1", Option.none, some "D1", Option.none, false,
            Option.none, Option.none, "pending"⟩,
           ⟨2, 1, "Product 2", Option.none, some "D2", Option.none, false,
            Option.none, Option.none, "pending"⟩,
           ⟨3, 1, "Product 3", Option.none, some "D3", Option.none, false,
            Option.none, Option.none, "pending"⟩] 1 1).1.1 = Except.ok resp ∧
      resp.optimized.length = 2 ∧ resp.errors.length = 1 ∧
      resp.errors = [(2, "ProviderError")] ∧
      (seoOptimizeAllProducts
          (fun p => if p.id == 2 then Except.error "ProviderError"
                    else Except.ok "<p>Optimized</p>") 0 [⟨1, 1, []⟩]
          [⟨1, 1, "Product 1", Option.none, some "D1", Option.none, false,
            Option.none, Option.none, "pending"⟩,
           ⟨2, 1, "Product 2", Option.none, some "D2", Option.none, false,
            Option.none, Option.none, "pending"⟩,
           ⟨3, 1, "Product 3", Option.none, some "D3", Option.none, false,
            Option.none, Option.none, "pending"⟩] 1 1).2
        = [⟨1, 1, "Product 1", Option.none, some "D1", some "<p>Optimized</p>", true,
            some 0, Option.none, "pending"⟩,
           ⟨2, 1, "Product 2", Option.none, some "D2", Option.none, false,
            Option.none, Option.none, "pending"⟩,
           ⟨3, 1, "Product 3", Option.none, some "D3", some "<p>Optimized</p>", true,
            some 0, Option.none, "pending"⟩] := by
  obtain ⟨resp, h1, h2, h3, h4, h5, h6⟩ :=
    seo_batch_isolation_and_counts
      (fun p => if p.id == 2 then Except.error "ProviderError"
                else Except.ok "<p>Optimized</p>") 0 [⟨1, 1, []⟩]
      [⟨1, 1, "Product 1", Option.none, some "D1", Option.none, false,
        Option.none, Option.none, "pending"⟩,
       ⟨2, 1, "Product 2", Option.none, some "D2", Option.none, false,
        Option.none, Option.none, "pending"⟩,
       ⟨3, 1, "Product 3", Option.none, some "D3", Option.none, false,
        Option.none, Option.none, "pending"⟩] 1 1 ⟨1, 1, []⟩ rfl
  refine ⟨resp, h1, ?_, ?_, ?_, ?_⟩
  · rw [h4]; rfl
  · rw [h5]; rfl
  · rw [h3]; rfl
  · rw [h6]; rfl

/-- C3 counterexample: a completed batch with one item attempted and zero
successes returns status 207 — exactly the same multi-status signal as a
mixed batch — rather than a distinct failure signal, refuting the claimed
three-way status policy at these concrete inputs. -/
theorem seo_zero_success_status_counterexample :
    (seoOptimizeAllProducts (fun _ => Except.error "ProviderError") 0 [⟨1, 1, []⟩]
        [⟨1, 1, "P1", Option.none, some "D1", Option.none, false,
          Option.none, Option.none, "pending"⟩] 1 1).1.2 = 207 ∧
    (seoOptimizeAllProducts
        (fun p => if p.id == 1 then Except.error "ProviderError"
                  else Except.ok "<p>New</p>") 0 [⟨1, 1, []⟩]
        [⟨1, 1, "P1", Option.none, some "D1", Option.none, false,
          Option.none, Option.none, "pending"⟩,
         ⟨2, 1, "P2", Option.none, some "D2", Option.none, false,
          Option.none, Option.none, "pending"⟩] 1 1).1.2 = 207 :=
  ⟨rfl, rfl⟩

/-- C3 (amended): the composite status of a completed batch is 200 when
every attempted item succeeded and 207 Multi-Status whenever at least one
item failed — including a batch in which zero items succeeded; there is no
distinct zero-success failure signal. -/
theorem seo_batch_status_policy
    (f : Product → Except String String) (now : Nat) (stores : List StoreRec)
    (products : List Product) (userId storeId : Nat) (store : StoreRec)
    (hs : findStore stores storeId userId = some store) :
    (seoOptimizeAllProducts f now stores products userId storeId).1.2
      = if (products.filter (fun p => p.store_id == storeId)).all
            (fun p => exceptOk (f p))
        then 200 else 207 := by
  simp only [seoOptimizeAllProducts, hs, optimizeLoop_errors_isEmpty]

/-- C3 witness: for a concrete mixed two-item batch the amended status
policy yields 207. -/
theorem seo_batch_status_policy_witness :
    (seoOptimizeAllProducts
        (fun p => if p.id == 1 then Except.error "E" else Except.ok "<p>ok</p>") 0
        [⟨1, 1, []⟩]
        [⟨1, 1, "P1", Option.none, some "D1", Option.none, false,
          Option.none, Option.none, "pending"⟩,
         ⟨2, 1, "P2", Option.none, some "D2", Option.none, false,
          Option.none, Option.none, "pending"⟩] 1 1).1.2 = 207 := by
  have h := seo_batch_status_policy
    (fun p => if p.id == 1 then Except.error "E" else Except.ok "<p>ok</p>") 0
    [⟨1, 1, []⟩]
    [⟨1, 1, "P1", Option.none, some "D1", Option.none, false,
      Option.none, Option.none, "pending"⟩,
     ⟨2, 1, "P2", Option.none, some "D2", Option.none, false,
      Option.none, Option.none, "pending"⟩] 1 1 ⟨1, 1, []⟩ rfl
  rw [h]
  rfl

/-- C4 (code bug): even when the active template renders and the generation
call succeeds, `_get_optimized_description` cannot complete a successful
single-item optimization, because `prompt.increment_usage()` names a method
the `Prompt` model does not define; the resulting AttributeError is wrapped
and surfaced instead of the optimized text, so the claimed post-state (text
stored, state optimized, timestamp set, usage counter incremented) is never
reached — the model has no usage counter at all. -/
theorem seo_increment_usage_missing_aborts_success :
    promptModelMethods.contains "increment_usage" = false ∧
    (getOptimizedDescription (fun t _ => Except.ok t) (fun _ => Except.ok "Great copy")
        ⟨[[("id", Val.nat 3), ("store_id", Val.nat 1), ("is_active", Val.bool true),
           ("template", Val.str "Body")]], 4⟩ 1 "T" "D" []).result
      = Except.error "Failed to generate optimized description: \x27Prompt\x27 object has no attribute \x27increment_usage\x27" :=
  ⟨rfl, rfl⟩

/-- C5 (code bug): for a store with no template at all, two successive
active-template lookups each create and persist a fresh default prompt:
the first call returns the prompt with id 1, the second a different prompt
with id 2, leaving two rows — because `create_default_prompt` never marks
its prompt active (the `Prompt` model has no `is_active` column), the
`is_active=True` lookup can never find the previously created default, so
the lazy creation is not idempotent. -/
theorem default_prompt_creation_not_idempotent :
    dictGet (getOrCreateActivePrompt ⟨[], 1⟩ 7).1 "id" = some (Val.nat 1) ∧
    dictGet (getOrCreateActivePrompt (getOrCreateActivePrompt ⟨[], 1⟩ 7).2 7).1 "id"
      = some (Val.nat 2) ∧
    dictGet (getOrCreateActivePrompt ⟨[], 1⟩ 7).1 "id"
      ≠ dictGet (getOrCreateActivePrompt (getOrCreateActivePrompt ⟨[], 1⟩ 7).2 7).1 "id" ∧
    (getOrCreateActivePrompt (getOrCreateActivePrompt ⟨[], 1⟩ 7).2 7).2.rows.length = 2 ∧
    dictGet (getOrCreateActivePrompt ⟨[], 1⟩ 7).1 "is_active" = Option.none := by
  refine ⟨rfl, rfl, ?_, rfl, rfl⟩
  intro h
  rw [show dictGet (getOrCreateActivePrompt ⟨[], 1⟩ 7).1 "id" = some (Val.nat 1) from rfl,
      show dictGet (getOrCreateActivePrompt (getOrCreateActivePrompt ⟨[], 1⟩ 7).2 7).1 "id"
        = some (Val.nat 2) from rfl] at h
  injection h with h'
  injection h' with h''
  omega

/-- C6: any failure of the per-item generation step inside the single-item
optimization (template lookup, rendering or the provider call, all of which
surface through the generation helper) is answered with an error response
and status 500 while the products table — the item's state, text and flags
— is returned exactly as it was, and no item is marked failed; this holds
for both `SEOService.optimize_product_description` and
`ProductService.optimize_product_description`. -/
theorem single_item_failure_leaves_product_untouched :
    (∀ (f : Product → Except String String) (now : Nat) (stores : List StoreRec)
       (products : List Product) (userId storeId productId : Nat)
       (store : StoreRec) (product : Product) (e : String),
       findStore stores storeId userId = some store →
       findProduct products productId storeId = some product →
       f product = Except.error e →
       seoOptimizeProductDescription f now stores products userId storeId productId
         = ((ApiResult.failure e, 500), products)) ∧
    (∀ (generate : String → Except String String) (now : Nat) (stores : List StoreRec)
       (products : List Product) (userId storeId productId : Nat)
       (store : StoreRec) (product : Product) (e : String),
       findStore stores storeId userId = some store →
       findProduct products productId storeId = some product →
       productGetOptimizedDescription generate
         (strOfOpt (pyOrOpt product.original_description product.description))
         product.title store.prompt_preferences = Except.error e →
       productOptimizeProductDescription generate now stores products userId storeId productId
         = ((ApiResult.failure e, 500), products)) := by
  constructor
  · intro f now stores products userId storeId productId store product e hs hp hf
    simp only [seoOptimizeProductDescription, hs, hp, hf]
  · intro generate now stores products userId storeId productId store product e hs hp hg
    simp only [productOptimizeProductDescription, hs, hp, hg]

/-- C6 witness: a failing render/generation on a concrete pending product
leaves the one-product table unchanged with a 500 error response, in both
services. -/
theorem single_item_failure_leaves_product_untouched_witness :
    seoOptimizeProductDescription (fun _ => Except.error "TemplateRenderError") 0
        [⟨1, 1, []⟩]
        [⟨1, 1, "P1", Option.none, some "D1", Option.none, false,
          Option.none, Option.none, "pending"⟩] 1 1 1
      = ((ApiResult.failure "TemplateRenderError", 500),
         [⟨1, 1, "P1", Option.none, some "D1", Option.none, false,
           Option.none, Option.none, "pending"⟩]) ∧
    productOptimizeProductDescription (fun _ => Except.error "ProviderError") 0
        [⟨1, 1, []⟩]
        [⟨1, 1, "P1", Option.none, some "D1", Option.none, false,
          Option.none, Option.none, "pending"⟩] 1 1 1
      = ((ApiResult.failure "Failed to generate optimized description: ProviderError", 500),
         [⟨1, 1, "P1", Option.none, some "D1", Option.none, false,
           Option.none, Option.none, "pending"⟩]) :=
  ⟨single_item_failure_leaves_product_untouched.1
     (fun _ => Except.error "TemplateRenderError") 0 [⟨1, 1, []⟩]
     [⟨1, 1, "P1", Option.none, some "D1", Option.none, false,
       Option.none, Option.none, "pending"⟩] 1 1 1 ⟨1, 1, []⟩
     ⟨1, 1, "P1", Option.none, some "D1", Option.none, false,
      Option.none, Option.none, "pending"⟩ "TemplateRenderError" rfl rfl rfl,
   single_item_failure_leaves_product_untouched.2
     (fun _ => Except.error "ProviderError") 0 [⟨1, 1, []⟩]
     [⟨1, 1, "P1", Option.none, some "D1", Option.none, false,
       Option.none, Option.none, "pending"⟩] 1 1 1 ⟨1, 1, []⟩
     ⟨1, 1, "P1", Option.none, some "D1", Option.none, false,
      Option.none, Option.none, "pending"⟩
     "Failed to generate optimized description: ProviderError" rfl rfl rfl⟩

/-- C7 counterexample: the claim's literal update payload
`{brand_voice: {emotion: "x"}}` is rejected by the required-field validation
(400, "Missing required field: tone") and the stored preferences are left
unchanged — the claimed merged result is never produced for this payload. -/
theorem brand_voice_example_payload_rejected_counterexample :
    updatePromptPreferences 0
        [⟨1, 1, [("brand_voice", Val.dict [("personality", Val.str "professional")])]⟩]
        1 1 [("brand_voice", Val.dict [("emotion", Val.str "x")])]
      = ((PrefResult.failure "Missing required field: tone", 400),
         [⟨1, 1, [("brand_voice", Val.dict [("personality", Val.str "professional")])]⟩]) :=
  rfl

/-- C7 (amended): when the update payload also carries the required fields
`tone`, `target_audience` and `writing_style`, a `brand_voice` object that
supplies only some keys is merged key-by-key into the stored `brand_voice`
(never replaced wholesale), and any stored key the payload does not mention
— such as `personality` — keeps its stored value. -/
theorem brand_voice_partial_update_merges (now : Nat) (tv av wv : Val)
    (bvStored bvNew : List (String × Val)) :
    (updatePromptPreferences now
        [⟨1, 1, [("brand_voice", Val.dict bvStored)]⟩] 1 1
        [("tone", tv), ("target_audience", av), ("writing_style", wv),
         ("brand_voice", Val.dict bvNew)]).1
      = (PrefResult.success "Prompt preferences updated successfully"
           [("brand_voice", Val.dict (dictUpdate bvStored bvNew)),
            ("tone", tv), ("target_audience", av), ("writing_style", wv)], 200) ∧
    (dictGet bvNew "personality" = Option.none →
      dictGet (dictUpdate bvStored bvNew) "personality" = dictGet bvStored "personality") :=
  ⟨rfl, fun h => dictGet_dictUpdate_of_none bvStored bvNew "personality" h⟩

/-- C7 witness: the spec's concrete example with the required fields
supplied: merging `{brand_voice: {emotion: "x"}}` into stored preferences
containing `{brand_voice: {personality: "professional"}}` yields
`{brand_voice: {personality: "professional", emotion: "x"}}`. -/
theorem brand_voice_partial_update_merges_witness :
    (updatePromptPreferences 0
        [⟨1, 1, [("brand_voice", Val.dict [("personality", Val.str "professional")])]⟩]
        1 1
        [("tone", Val.str "professional"), ("target_audience", Val.str "general"),
         ("writing_style", Val.str "descriptive"),
         ("brand_voice", Val.dict [("emotion", Val.str "x")])]).1
      = (PrefResult.success "Prompt preferences updated successfully"
           [("brand_voice", Val.dict [("personality", Val.str "professional"),
                                      ("emotion", Val.str "x")]),
            ("tone", Val.str "professional"), ("target_audience", Val.str "general"),
            ("writing_style", Val.str "descriptive")], 200) ∧
    dictGet (dictUpdate [("personality", Val.str "professional")]
        [("emotion", Val.str "x")]) "personality"
      = some (Val.str "professional") := by
  have h := brand_voice_partial_update_merges 0 (Val.str "professional")
    (Val.str "general") (Val.str "descriptive")
    [("personality", Val.str "professional")] [("emotion", Val.str "x")]
  exact ⟨h.1, h.2 rfl⟩

/-- C8: the stored generation output is the provider text wrapped in a
single paragraph tag when its stripped form does not open with `<`
("Hello world" becomes "<p>Hello world</p>") and the unchanged text when it
does ("<div>Hi</div>" is kept); the optimization path stores exactly this
normalization of the provider's response. -/
theorem generation_output_normalization :
    ensureHtml "Hello world" = "<p>Hello world</p>" ∧
    ensureHtml "<div>Hi</div>" = "<div>Hi</div>" ∧
    (∀ raw : String, ensureHtml raw
        = if pyStartsWith (pyStrip raw) "<" then raw else "<p>" ++ raw ++ "</p>") ∧
    (∀ raw : String,
      productGetOptimizedDescription (fun _ => Except.ok raw) "D" "T" []
        = Except.ok (ensureHtml raw)) ∧
    (∀ raw : String,
      ((productOptimizeProductDescription (fun _ => Except.ok raw) 5 [⟨1, 1, []⟩]
          [⟨1, 1, "T", some "D", Option.none, Option.none, false,
            Option.none, Option.none, "pending"⟩] 1 1 1).2).map
          (fun p => p.optimized_description)
        = [some (ensureHtml raw)]) := by
  refine ⟨by decide, by decide, ?_, ?_, ?_⟩
  · intro raw
    unfold ensureHtml
    cases h : pyStartsWith (pyStrip raw) "<" <;> simp [h]
  · intro raw
    rfl
  · intro raw
    rfl

/-- C9: a preference-update payload that omits any of `tone`,
`target_audience`, `writing_style` is rejected with a 400 naming the first
missing field in that fixed order, and the stores table — in particular the
store's stored preferences — is returned unchanged. -/
theorem missing_required_pref_field_rejected (now : Nat) (stores : List StoreRec)
    (storeId userId : Nat) (store : StoreRec) (payload : List (String × Val))
    (fld : String)
    (hs : findStore stores storeId userId = some store)
    (hm : requiredPrefFields.find? (fun f0 => !(dictHas payload f0)) = some fld) :
    updatePromptPreferences now stores storeId userId payload
      = ((PrefResult.failure ("Missing required field: " ++ fld), 400), stores) := by
  simp only [updatePromptPreferences, hs, hm]

/-- C9 witness: a payload carrying only `tone` is rejected naming
`target_audience` (the first missing required field) and the store's
preferences survive unchanged. -/
theorem missing_required_pref_field_rejected_witness :
    updatePromptPreferences 0 [⟨1, 1, [("tone", Val.str "casual")]⟩] 1 1
        [("tone", Val.str "formal")]
      = ((PrefResult.failure "Missing required field: target_audience", 400),
         [⟨1, 1, [("tone", Val.str "casual")]⟩]) :=
  missing_required_pref_field_rejected 0 [⟨1, 1, [("tone", Val.str "casual")]⟩] 1 1
    ⟨1, 1, [("tone", Val.str "casual")]⟩ [("tone", Val.str "formal")]
    "target_audience" rfl rfl

/-- C10: a prompt-creation or prompt-update request whose template body
fails to parse is rejected with a 400 before any write (the prompts table is
returned unchanged), and both operations preserve the invariant that every
persisted prompt they create or modify has a parseable template body. -/
theorem unparseable_template_never_persisted :
    (∀ (jp : String → Except String Unit) (stores : List StoreRec) (db : PromptsDB)
       (storeId userId : Nat) (data : List (String × Val)) (store : StoreRec)
       (t e : String),
       findStore stores storeId userId = some store →
       dictHas data "name" = true →
       dictGet data "template" = some (Val.str t) →
       jp t = Except.error e →
       (createPrompt jp stores db storeId userId data).1.2 = 400 ∧
       (createPrompt jp stores db storeId userId data).2 = db) ∧
    (∀ (jp : String → Except String Unit) (stores : List StoreRec) (db : PromptsDB)
       (storeId userId promptId : Nat) (data : List (String × Val)) (store : StoreRec)
       (prompt : PromptObj) (t e : String),
       findStore stores storeId userId = some store →
       db.rows.find? (promptIdMatches promptId storeId) = some prompt →
       dictGet data "template" = some (Val.str t) →
       jp t = Except.error e →
       (updatePrompt jp stores db storeId userId promptId data).1.2 = 400 ∧
       (updatePrompt jp stores db storeId userId promptId data).2 = db) ∧
    (∀ (jp : String → Except String Unit) (stores : List StoreRec) (db : PromptsDB)
       (storeId userId : Nat) (data : List (String × Val)),
       promptTemplatesParseable jp db →
       promptTemplatesParseable jp (createPrompt jp stores db storeId userId data).2) ∧
    (∀ (jp : String → Except String Unit) (stores : List StoreRec) (db : PromptsDB)
       (storeId userId promptId : Nat) (data : List (String × Val)),
       promptTemplatesParseable jp db →
       promptTemplatesParseable jp (updatePrompt jp stores db storeId userId promptId data).2) := by
  refine ⟨?_, ?_, ?_, ?_⟩
  · intro jp stores db storeId userId data store t e hs hname ht hj
    have hhas : dictHas data "template" = true := by
      unfold dictHas; rw [ht]; rfl
    have hreq : (["name", "template"]).find? (fun fld => !(dictHas data fld))
        = Option.none := by
      simp [List.find?, hname, hhas]
    have hpc : templateParseCheck jp (dictGet data "template") = Except.error e := by
      rw [ht]; exact hj
    simp only [createPrompt, hs, hreq, hpc]
    exact ⟨by trivial, by trivial⟩
  · intro jp stores db storeId userId promptId data store prompt t e hs hfp ht hj
    have hhas : dictHas data "template" = true := by
      unfold dictHas; rw [ht]; rfl
    have hv : (if dictHas data "template" then
          templateParseCheck jp (dictGet data "template")
        else Except.ok ()) = Except.error e := by
      simp only [hhas, if_true, ht]
      exact hj
    simp only [updatePrompt, hs, hfp, hv]
    exact ⟨by trivial, by trivial⟩
  · intro jp stores db storeId userId data hinv
    cases hfs : findStore stores storeId userId with
    | none =>
      simp only [createPrompt, hfs]
      exact hinv
    | some store =>
      cases hreq : (["name", "template"]).find? (fun fld => !(dictHas data fld)) with
      | some fld =>
        simp only [createPrompt, hfs, hreq]
        exact hinv
      | none =>
        cases hpc : templateParseCheck jp (dictGet data "template") with
        | error e =>
          simp only [createPrompt, hfs, hreq, hpc]
          exact hinv
        | ok u =>
          simp only [createPrompt, hfs, hreq, hpc, insertPrompt]
          intro p hp t hpt
          rcases List.mem_append.mp hp with hmem | hmem
          · exact hinv p hmem t hpt
          · have hp' : p = dictSet (buildPromptFromData storeId data) "id"
                (Val.nat db.nextId) := by
              simpa using hmem
            subst hp'
            have e1 : dictGet (dictSet (buildPromptFromData storeId data) "id"
                (Val.nat db.nextId)) "template"
                = some (dictGetD data "template" Val.pynone) := rfl
            rw [e1] at hpt
            injection hpt with hv
            cases hdt : dictGet data "template" with
            | none =>
              unfold dictGetD at hv
              rw [hdt] at hv
              simp at hv
            | some v =>
              unfold dictGetD at hv
              rw [hdt] at hv
              simp only [Option.getD_some] at hv
              subst hv
              rw [hdt] at hpc
              exact hpc
  · intro jp stores db storeId userId promptId data hinv
    cases hfs : findStore stores storeId userId with
    | none =>
      simp only [updatePrompt, hfs]
      exact hinv
    | some store =>
      cases hfp : db.rows.find? (promptIdMatches promptId storeId) with
      | none =>
        simp only [updatePrompt, hfs, hfp]
        exact hinv
      | some prompt =>
        cases hv : (if dictHas data "template" then
            templateParseCheck jp (dictGet data "template")
          else Except.ok ()) with
        | error e =>
          simp only [updatePrompt, hfs, hfp, hv]
          exact hinv
        | ok u =>
          simp only [updatePrompt, hfs, hfp, hv]
          intro p hp t hpt
          rcases List.mem_map.mp hp with ⟨q, hq, rfl⟩
          by_cases hqm : promptIdMatches promptId storeId q = true
          · rw [if_pos hqm] at hpt
            rw [applyPromptUpdate, applyFields_get] at hpt
            by_cases hmem : ("template" ∈ updateablePromptFields ∧
                (dictGet data "template").isSome)
            · rw [if_pos hmem] at hpt
              have hhas : dictHas data "template" = true := by
                unfold dictHas; rw [hpt]; rfl
              have hv2 : templateParseCheck jp (dictGet data "template")
                  = Except.ok u := by
                simpa [hhas] using hv
              rw [hpt] at hv2
              exact hv2
            · rw [if_neg hmem] at hpt
              exact hinv prompt (List.mem_of_find?_eq_some hfp) t hpt
          · rw [if_neg hqm] at hpt
            exact hinv q hq t hpt

/-- C10 witness: with a parser that rejects the body, creating a prompt with
template "broken" answers 400 and leaves the empty prompts table empty;
updating an existing prompt with that body answers 400 and leaves its table
unchanged; and the parseability invariant is preserved by the rejected
creation. -/
theorem unparseable_template_never_persisted_witness :
    (createPrompt (fun _ => Except.error "unexpected end of template")
        [⟨1, 1, []⟩] ⟨[], 1⟩ 1 1
        [("name", Val.str "N"), ("template", Val.str "broken")]).1.2 = 400 ∧
    (createPrompt (fun _ => Except.error "unexpected end of template")
        [⟨1, 1, []⟩] ⟨[], 1⟩ 1 1
        [("name", Val.str "N"), ("template", Val.str "broken")]).2
      = (⟨[], 1⟩ : PromptsDB) ∧
    (updatePrompt (fun _ => Except.error "unexpected end of template")
        [⟨1, 1, []⟩]
        ⟨[[("id", Val.nat 5), ("store_id", Val.nat 1), ("template", Val.str "T0")]], 6⟩
        1 1 5 [("template", Val.str "broken")]).1.2 = 400 ∧
    (updatePrompt (fun _ => Except.error "unexpected end of template")
        [⟨1, 1, []⟩]
        ⟨[[("id", Val.nat 5), ("store_id", Val.nat 1), ("template", Val.str "T0")]], 6⟩
        1 1 5 [("template", Val.str "broken")]).2
      = (⟨[[("id", Val.nat 5), ("store_id", Val.nat 1), ("template", Val.str "T0")]], 6⟩ : PromptsDB) ∧
    promptTemplatesParseable (fun _ => Except.error "unexpected end of template")
      (createPrompt (fun _ => Except.error "unexpected end of template")
        [⟨1, 1, []⟩] ⟨[], 1⟩ 1 1
        [("name", Val.str "N"), ("template", Val.str "broken")]).2 := by
  have hempty : promptTemplatesParseable (fun _ => Except.error "unexpected end of template")
      (⟨[], 1⟩ : PromptsDB) := by
    intro p hp t ht
    exact absurd hp (List.not_mem_nil p)
  have h1 := unparseable_template_never_persisted.1
    (fun _ => Except.error "unexpected end of template") [⟨1, 1, []⟩] ⟨[], 1⟩ 1 1
    [("name", Val.str "N"), ("template", Val.str "broken")] ⟨1, 1, []⟩
    "broken" "unexpected end of template" rfl rfl rfl rfl
  have h2 := unparseable_template_never_persisted.2.1
    (fun _ => Except.error "unexpected end of template") [⟨1, 1, []⟩]
    ⟨[[("id", Val.nat 5), ("store_id", Val.nat 1), ("template", Val.str "T0")]], 6⟩
    1 1 5 [("template", Val.str "broken")] ⟨1, 1, []⟩
    [("id", Val.nat 5), ("store_id", Val.nat 1), ("template", Val.str "T0")]
    "broken" "unexpected end of template" rfl rfl rfl rfl
  have h3 := unparseable_template_never_persisted.2.2.1
    (fun _ => Except.error "unexpected end of template") [⟨1, 1, []⟩] ⟨[], 1⟩ 1 1
    [("name", Val.str "N"), ("template", Val.str "broken")] hempty
  exact ⟨h1.1, h1.2, h2.1, h2.2, h3⟩
